import Mathlib

/-!
Verification of the function-invocation core of the anvm engine
(crates/engine/src/vm_function.rs): the polymorphic VMFunction value
(Internal and External variants), the calling convention (push_args and
pop_results) and the eval entry protocol.

The surrounding collaborators (the VMModule state, the operand stack, the
interpreter and the error enum of crate::instance) are outside the shown
source; they are modelled from the specification, each with a doc comment
saying so.  The interpreter drive loop (VMModule::do_loop) is kept abstract
as a parameter of type DoLoop.
-/

namespace Anvm

/-- Modelled from the spec: the WebAssembly value types carried by
anvm_parser::ast (the parser crate is out of scope). -/
inductive ValType where
  | I32
  | I64
  | F32
  | F64
deriving DecidableEq, Repr

/-- Modelled from the spec: anvm_parser::ast::FunctionType, the ordered
parameter value-types and ordered result value-types of a function. -/
structure FunctionType where
  params : List ValType
  results : List ValType
deriving DecidableEq, Repr

/-- Modelled from the spec: anvm_parser::types::Value, one operand-stack
value.  Integer payloads are Lean Int; the two float variants carry their
raw bit patterns as Nat, since no claim performs float arithmetic. -/
inductive Value where
  | I32 : Int → Value
  | I64 : Int → Value
  | F32 : Nat → Value
  | F64 : Nat → Value
deriving DecidableEq, Repr

/-- Zero value of a value type, used for the fresh local slots a call frame
installs beyond the parameters. -/
def ValType.zeroValue : ValType → Value
  | .I32 => .I32 0
  | .I64 => .I64 0
  | .F32 => .F32 0
  | .F64 => .F64 0

/-- Modelled from the spec: anvm_parser::ast::LocalGroup, a declaration of
`variable_count` additional local slots of one value type. -/
structure LocalGroup where
  variable_count : Nat
  value_type : ValType
deriving DecidableEq, Repr

/-- Modelled from the spec: one interpreter call frame — the per-invocation
locals region (parameters in the low indices, then the declared extra
locals) and the instruction sequence the frame executes.  `Instr` is the
abstract instruction type of anvm_parser (out of scope). -/
structure Frame (Instr : Type) where
  locals : List Value
  expression : List Instr
deriving DecidableEq

/-- Modelled from the spec: the module instance state (vm_module.rs is not
in the shown source).  The module owns the operand stack and the call-frame
stack; `memory` and `globals` stand for the remaining module state that the
invocation subsystem never touches directly. -/
structure VMModule (Instr : Type) where
  operand_stack : List Value
  frames : List (Frame Instr)
  memory : List Nat
  globals : List Value
deriving DecidableEq

/-- Modelled from Rust std semantics: the Rc of RefCell of VMModule cell an
internal function's weak back-reference upgrades to.  `borrowed` records
whether a mutable borrow of the cell is currently outstanding; borrow_mut
on an already-borrowed cell panics. -/
structure ModuleCell (Instr : Type) where
  value : VMModule Instr
  borrowed : Bool
deriving DecidableEq

/-- Modelled from the spec: crate::instance::EngineError (not in the shown
source).  InvalidOperation is the only variant this subsystem constructs;
`Other` stands for the remaining, distinct error kinds of the enum. -/
inductive EngineError where
  | InvalidOperation : String → EngineError
  | Other : String → String → EngineError
deriving DecidableEq, Repr

/-- The VMFunction value of vm_function.rs.  The Rust struct
(function_type plus a FunctionItem enum) is flattened into one inductive:
`internal` carries the local declarations, the shared instruction sequence
and the weak back-reference to the owning module (an unresolvable weak
reference is `none`); `external` carries the shared reference to the
imported function, which is itself a VMFunction. -/
inductive VMFunction (Instr : Type) where
  | internal (function_type : FunctionType) (local_groups : List LocalGroup)
      (expression : List Instr) (vm_module : Option (ModuleCell Instr))
  | external (function_type : FunctionType) (r : VMFunction Instr)

/-- VMFunction::new_internal_function. -/
def new_internal_function {Instr : Type} (function_type : FunctionType)
    (local_groups : List LocalGroup) (expression : List Instr)
    (vm_module : Option (ModuleCell Instr)) : VMFunction Instr :=
  .internal function_type local_groups expression vm_module

/-- VMFunction::new_external_function. -/
def new_external_function {Instr : Type} (function_type : FunctionType)
    (r : VMFunction Instr) : VMFunction Instr :=
  .external function_type r

/-- VMFunction::get_function_type — returns a copy of the stored signature. -/
def VMFunction.get_function_type {Instr : Type} : VMFunction Instr → FunctionType
  | .internal function_type _ _ _ => function_type
  | .external function_type _ => function_type

/-- Modelled from the spec: OperandStack::push_values.  The stack is a list
whose last element is the top; pushing a value list appends it, so the
first value ends up deepest and the last value topmost. -/
def push_values (stack : List Value) (values : List Value) : List Value :=
  stack ++ values

/-- Modelled from the spec: OperandStack::pop_values.  Pops `count` values
off the top; the value popped first (the topmost) occupies the last,
highest-index position of the returned sequence, so the returned list is
the popped suffix in its original bottom-to-top order.  Returns the popped
values and the remaining stack. -/
def pop_values (stack : List Value) (count : Nat) : List Value × List Value :=
  (stack.drop (stack.length - count), stack.take (stack.length - count))

/-- push_args of vm_function.rs: checks the argument count against the
declared parameter count, failing with InvalidOperation before any stack
mutation on a mismatch, and otherwise pushes the arguments left-to-right
onto the operand stack. -/
def push_args {Instr : Type} (vm_module : VMModule Instr)
    (function_type : FunctionType) (args : List Value) :
    Except EngineError (VMModule Instr) :=
  if args.length ≠ function_type.params.length then
    .error (.InvalidOperation ("the number of arguments and parameters do not match"))
  else
    .ok { vm_module with operand_stack := push_values vm_module.operand_stack args }

/-- The zero-initialised extra local slots declared by a local-group list. -/
def localsInit (local_groups : List LocalGroup) : List Value :=
  (local_groups.map fun g => List.replicate g.variable_count g.value_type.zeroValue).flatten

/-- Modelled from the spec: interpreter::call_internal_function — begin a
call frame.  Pops the already-pushed parameters off the operand stack,
binds them into the low-indexed locals in declaration order (parameter 0 is
the first, deepest-pushed argument), appends the zero-initialised declared
locals, and points the new frame at the instruction sequence. -/
def call_internal_function {Instr : Type} (function_type : FunctionType)
    (local_groups : List LocalGroup) (expression : List Instr)
    (vm_module : VMModule Instr) : VMModule Instr :=
  let n := function_type.params.length
  let popped := pop_values vm_module.operand_stack n
  { vm_module with
      operand_stack := popped.2,
      frames := ⟨popped.1 ++ localsInit local_groups, expression⟩ :: vm_module.frames }

/-- pop_results of vm_function.rs: pops exactly `len(signature.results)`
values off the top of the operand stack and returns them (with the updated
module, since the Rust code mutates the module in place). -/
def pop_results {Instr : Type} (vm_module : VMModule Instr)
    (function_type : FunctionType) : List Value × VMModule Instr :=
  let count := function_type.results.length
  let popped := pop_values vm_module.operand_stack count
  (popped.1, { vm_module with operand_stack := popped.2 })

/-- Abstract interpreter drive loop (VMModule::do_loop, out of scope): runs
the just-begun call frame to completion, mutating the module.  A `.error`
outcome stands for an interpreter-internal fault aborting the run via a
Rust panic. -/
def DoLoop (Instr : Type) : Type :=
  VMModule Instr → Except String (VMModule Instr)

/-- Outcome of one eval call.  The Rust signature is
Result of Vec Value / EngineError with the module mutated through its
RefCell; the embedding passes the reached module state explicitly in the
`ok` and `err` outcomes, and `panicked` stands for abnormal termination
(a Rust panic). -/
inductive EvalResult (Instr : Type) where
  | ok : List Value → VMModule Instr → EvalResult Instr
  | err : EngineError → VMModule Instr → EvalResult Instr
  | panicked : String → EvalResult Instr
deriving DecidableEq

/-- True exactly on the `ok` outcome. -/
def EvalResult.isOk {Instr : Type} : EvalResult Instr → Bool
  | .ok _ _ => true
  | _ => false

/-- True exactly on the `err` outcome. -/
def EvalResult.isErr {Instr : Type} : EvalResult Instr → Bool
  | .err _ _ => true
  | _ => false

/-- eval_internal_function of vm_function.rs: push the arguments (failing
fast on an arity mismatch), begin the call frame, drive the interpreter
loop, then pop and return the declared number of results. -/
def eval_internal_function {Instr : Type} (do_loop : DoLoop Instr)
    (function_type : FunctionType) (local_groups : List LocalGroup)
    (expression : List Instr) (vm_module : VMModule Instr)
    (args : List Value) : EvalResult Instr :=
  match push_args vm_module function_type args with
  | .error e => .err e vm_module
  | .ok vm₁ =>
    let vm₂ := call_internal_function function_type local_groups expression vm₁
    match do_loop vm₂ with
    | .error msg => .panicked msg
    | .ok vm₃ =>
      let popped := pop_results vm₃ function_type
      .ok popped.1 popped.2

/-- VMFunction::eval.  Internal: upgrade the weak back-reference (panicking
if the owning module is gone), take the mutable borrow of the module cell
(panicking if a borrow is already outstanding, per RefCell), and run
eval_internal_function.  External: forward the call verbatim to the
referenced function's own eval. -/
def VMFunction.eval {Instr : Type} (do_loop : DoLoop Instr) :
    VMFunction Instr → List Value → EvalResult Instr
  | .internal _ _ _ none, _ =>
      .panicked ("failed to get the module instance")
  | .internal function_type local_groups expression (some cell), args =>
      if cell.borrowed then .panicked ("already mutably borrowed")
      else eval_internal_function do_loop function_type local_groups expression
        cell.value args
  | .external _ r, args => r.eval do_loop args

/-- A finite chain of External wrappers (with the given declared signatures,
outermost first) around a function. -/
def wrap_chain {Instr : Type} (tys : List FunctionType)
    (f : VMFunction Instr) : VMFunction Instr :=
  tys.foldr (fun t g => VMFunction.external t g) f

/-! Concrete fixtures used by witnesses and counterexamples.  The abstract
instruction type is instantiated with Unit. -/

/-- A fresh, empty module instance. -/
def vmEmpty : VMModule Unit := ⟨[], [], [], []⟩

/-- A live module cell with no outstanding borrow. -/
def cellFree : ModuleCell Unit := ⟨vmEmpty, false⟩

/-- A live module cell whose mutable borrow is outstanding: the state of the
owning module's cell while an eval on that module is in progress. -/
def cellBusy : ModuleCell Unit := ⟨vmEmpty, true⟩

/-- An interpreter loop that completes at once, leaving the module as is. -/
def doLoopId : DoLoop Unit := fun vm => .ok vm

/-- An interpreter loop that completes the just-begun frame after pushing
the values 1 then 2, in that order, onto the operand stack. -/
def doLoopPush12 : DoLoop Unit := fun vm =>
  .ok { vm with
          operand_stack := vm.operand_stack ++ [Value.I32 1, Value.I32 2],
          frames := vm.frames.tail }

/-- An interpreter loop that completes the just-begun frame after pushing
the single value 7 onto the operand stack. -/
def doLoopPush7 : DoLoop Unit := fun vm =>
  .ok { vm with
          operand_stack := vm.operand_stack ++ [Value.I32 7],
          frames := vm.frames.tail }

/-- An interpreter loop whose run hits a trap condition and aborts
abnormally. -/
def doLoopTrap : DoLoop Unit := fun _ => .error ("trap: integer divide by zero")

/-- An Internal identity-shaped callee of declared type (i32) -> (), living
in a free module cell. -/
def c1Inner : VMFunction Unit :=
  .internal ⟨[.I32], []⟩ [] [] (some cellFree)

/-- An External wrapper around c1Inner whose own declared signature,
(i32, i32) -> (), differs from the signature of the function it wraps. -/
def c1Wrapper : VMFunction Unit :=
  .external ⟨[.I32, .I32], []⟩ c1Inner

/-! Shared lemmas. -/

/-- Evaluating a chain of External wrappers forwards verbatim to the
wrapped function. -/
lemma eval_wrap_chain {Instr : Type} (do_loop : DoLoop Instr)
    (tys : List FunctionType) (f : VMFunction Instr) (args : List Value) :
    (wrap_chain tys f).eval do_loop args = f.eval do_loop args := by
  induction tys with
  | nil => rfl
  | cons t ts ih =>
    show (VMFunction.external t (wrap_chain ts f)).eval do_loop args = _
    rw [VMFunction.eval]
    exact ih

/-- When the argument count matches and the interpreter run completes,
eval_internal_function returns exactly what pop_results yields on the
module the run produced. -/
lemma eval_internal_function_ok {Instr : Type} (do_loop : DoLoop Instr)
    (ft : FunctionType) (lg : List LocalGroup) (ex : List Instr)
    (vm vmDone : VMModule Instr) (args : List Value)
    (ha : args.length = ft.params.length)
    (hrun : do_loop (call_internal_function ft lg ex
        { vm with operand_stack := push_values vm.operand_stack args })
      = .ok vmDone) :
    eval_internal_function do_loop ft lg ex vm args
      = .ok (pop_results vmDone ft).1 (pop_results vmDone ft).2 := by
  unfold eval_internal_function
  rw [push_args, if_neg (by simp [ha])]
  simp only [hrun]

/-! Claim theorems. -/

/-- Claim C4: for every function f and every argument list, evaluating any
finite chain of External wrappers around f produces exactly the same
outcome as evaluating f directly — the same results on success and the same
error on failure, with no re-marshaling of arguments. -/
theorem claim_C4 {Instr : Type} (do_loop : DoLoop Instr)
    (tys : List FunctionType) (f : VMFunction Instr) (args : List Value) :
    (wrap_chain tys f).eval do_loop args = f.eval do_loop args :=
  eval_wrap_chain do_loop tys f args

/-- Claim C6: for every Internal function whose weak back-reference to its
owning module no longer resolves to a live module, eval terminates
abnormally with a panic instead of returning a recoverable error value
through the normal error channel. -/
theorem claim_C6 {Instr : Type} (do_loop : DoLoop Instr)
    (function_type : FunctionType) (local_groups : List LocalGroup)
    (expression : List Instr) (args : List Value) :
    (VMFunction.internal function_type local_groups expression none).eval
        do_loop args = .panicked ("failed to get the module instance") ∧
    ((VMFunction.internal function_type local_groups expression none).eval
        do_loop args).isErr = false :=
  ⟨rfl, rfl⟩

/-- Claim C8: for every function constructed by new_internal_function or
new_external_function with function type T, get_function_type returns
exactly T; it is a pure projection, and since VMFunction is immutable
(eval takes the function by shared reference and the value has no interior
mutability), no eval call ever changes the stored signature. -/
theorem claim_C8 {Instr : Type} (function_type : FunctionType)
    (local_groups : List LocalGroup) (expression : List Instr)
    (vm_module : Option (ModuleCell Instr)) (r : VMFunction Instr) :
    (new_internal_function function_type local_groups expression
        vm_module).get_function_type = function_type ∧
    (new_external_function function_type r).get_function_type = function_type :=
  ⟨rfl, rfl⟩

/-- Claim C1 (amended): for every Internal function with signature S —
under any finite chain of External wrappers — whose module is live with no
outstanding borrow, calling with an argument list A with len(A) not equal
to len(S.params) returns an InvalidOperation error and leaves the target
module (in particular its operand stack) exactly as it was.  The amendment:
S is the signature of the underlying Internal function; an External
wrapper's own declared signature is never consulted by eval. -/
theorem claim_C1 {Instr : Type} (do_loop : DoLoop Instr)
    (tys : List FunctionType) (ft : FunctionType) (lg : List LocalGroup)
    (ex : List Instr) (cell : ModuleCell Instr) (args : List Value)
    (hb : cell.borrowed = false) (hn : args.length ≠ ft.params.length) :
    (wrap_chain tys (VMFunction.internal ft lg ex (some cell))).eval
        do_loop args
      = .err (.InvalidOperation
          ("the number of arguments and parameters do not match")) cell.value := by
  rw [eval_wrap_chain]
  simp [VMFunction.eval, hb, eval_internal_function, push_args, hn]

/-- Witness for C1: a concrete zero-argument call to a one-parameter
Internal function fails with InvalidOperation and returns the module
unchanged. -/
theorem claim_C1_witness :
    cellFree.borrowed = false ∧
    ([] : List Value).length ≠ (FunctionType.mk [.I32] []).params.length ∧
    (wrap_chain [] (VMFunction.internal ⟨[.I32], []⟩ [] []
        (some cellFree))).eval doLoopId ([] : List Value)
      = .err (.InvalidOperation
          ("the number of arguments and parameters do not match")) cellFree.value :=
  ⟨rfl, by decide,
    claim_C1 doLoopId [] ⟨[.I32], []⟩ [] [] cellFree [] rfl (by decide)⟩

/-- Counterexample to C1 as stated: c1Wrapper is an External function whose
declared signature has two parameters, yet calling it with the single
argument 42 succeeds (the wrapper forwards verbatim to the wrapped
one-parameter Internal function), instead of returning an InvalidOperation
error. -/
theorem claim_C1_counterexample :
    ([Value.I32 42].length ≠ c1Wrapper.get_function_type.params.length) ∧
    (c1Wrapper.eval doLoopId [Value.I32 42]).isOk = true :=
  ⟨by decide, by decide⟩

/-- Claim C7 (amended): re-entering eval on an Internal function while an
eval of the same module is in progress (the module cell's mutable borrow is
outstanding) terminates abnormally with a RefCell borrow panic — the nested
acquisition of exclusive access does not succeed, so re-entrant recursion
must be handled inside the interpreter under the single outer borrow. -/
theorem claim_C7 {Instr : Type} (do_loop : DoLoop Instr)
    (ft : FunctionType) (lg : List LocalGroup) (ex : List Instr)
    (cell : ModuleCell Instr) (args : List Value)
    (hb : cell.borrowed = true) :
    (VMFunction.internal ft lg ex (some cell)).eval do_loop args
      = .panicked ("already mutably borrowed") := by
  simp [VMFunction.eval, hb]

/-- Witness for C7: a concrete nested eval on a busy module cell panics. -/
theorem claim_C7_witness :
    cellBusy.borrowed = true ∧
    (VMFunction.internal ⟨[], [.I32]⟩ [] [] (some cellBusy)).eval doLoopId
        ([] : List Value) = .panicked ("already mutably borrowed") :=
  ⟨rfl, claim_C7 doLoopId ⟨[], [.I32]⟩ [] [] cellBusy [] rfl⟩

/-- Counterexample to C7 as stated: an Internal function whose module cell
is mutably borrowed by an in-progress eval does not complete successfully
when eval is reached again — the nested acquisition panics rather than
returning the expected result. -/
theorem claim_C7_counterexample :
    ((VMFunction.internal ⟨[], [.I32]⟩ [] [] (some cellBusy)).eval doLoopId
        ([] : List Value)).isOk = false ∧
    (VMFunction.internal ⟨[], [.I32]⟩ [] [] (some cellBusy)).eval doLoopId
        ([] : List Value) = .panicked ("already mutably borrowed") :=
  ⟨by decide, by decide⟩

/-- Claim C5 (amended): when the interpreter's run of the call frame hits a
fault (trap condition), eval propagates it as abnormal termination — the
panic aborts the call — rather than converting it into an error value of a
distinct kind on the normal error channel; after a successful argument
push, eval's normal channel can only yield success. -/
theorem claim_C5 {Instr : Type} (do_loop : DoLoop Instr)
    (ft : FunctionType) (lg : List LocalGroup) (ex : List Instr)
    (cell : ModuleCell Instr) (args : List Value) (msg : String)
    (hb : cell.borrowed = false)
    (ha : args.length = ft.params.length)
    (hfault : do_loop (call_internal_function ft lg ex
        { cell.value with
            operand_stack := push_values cell.value.operand_stack args })
      = .error msg) :
    (VMFunction.internal ft lg ex (some cell)).eval do_loop args
      = .panicked msg := by
  simp [VMFunction.eval, hb, eval_internal_function, push_args, ha, hfault]

/-- Witness for C5: a concrete trapping interpreter run aborts the eval of
a nullary Internal function with the trap's panic. -/
theorem claim_C5_witness :
    cellFree.borrowed = false ∧
    ([] : List Value).length = (FunctionType.mk [] []).params.length ∧
    doLoopTrap (call_internal_function ⟨[], []⟩ [] []
        { cellFree.value with
            operand_stack := push_values cellFree.value.operand_stack [] })
      = .error ("trap: integer divide by zero") ∧
    (VMFunction.internal ⟨[], []⟩ [] [] (some cellFree)).eval doLoopTrap
        ([] : List Value) = .panicked ("trap: integer divide by zero") :=
  ⟨rfl, rfl, rfl,
    claim_C5 doLoopTrap ⟨[], []⟩ [] [] cellFree []
      ("trap: integer divide by zero") rfl rfl rfl⟩

/-- Counterexample to C5 as stated: a nullary Internal call whose
interpreter run traps does not yield an error value of any kind through
eval's normal error channel — the eval terminates abnormally instead. -/
theorem claim_C5_counterexample :
    ((VMFunction.internal ⟨[], []⟩ [] [] (some cellFree)).eval doLoopTrap
        ([] : List Value)).isErr = false ∧
    (VMFunction.internal ⟨[], []⟩ [] [] (some cellFree)).eval doLoopTrap
        ([] : List Value) = .panicked ("trap: integer divide by zero") :=
  ⟨by decide, by decide⟩

/-- Claim C3: for every Internal function with signature S and argument
list of matching length, push_args pushes the arguments onto the operand
stack in their given left-to-right order (first argument deepest, last
topmost), and the call frame begun from that stack binds parameter 0 to
the first argument, parameter 1 to the second, and so on (its locals list
starts with exactly the argument list). -/
theorem claim_C3 {Instr : Type} (ft : FunctionType) (lg : List LocalGroup)
    (ex : List Instr) (vm : VMModule Instr) (args : List Value)
    (ha : args.length = ft.params.length) :
    push_args vm ft args
        = .ok { vm with operand_stack := vm.operand_stack ++ args } ∧
    (call_internal_function ft lg ex
        { vm with operand_stack := vm.operand_stack ++ args }).frames
      = ⟨args ++ localsInit lg, ex⟩ :: vm.frames ∧
    (args ++ localsInit lg).take ft.params.length = args := by
  refine ⟨?_, ?_, ?_⟩
  · simp [push_args, push_values, ha]
  · simp only [call_internal_function, pop_values]
    have hlen : (vm.operand_stack ++ args).length - ft.params.length
        = vm.operand_stack.length := by
      simp [← ha]
    rw [hlen, List.drop_left]
  · rw [← ha, List.take_left]

/-- Witness for C3: calling with arguments 10 and 20 on a two-parameter
signature places 10 deepest and 20 on top, and the frame's locals bind
parameter 0 to 10 and parameter 1 to 20. -/
theorem claim_C3_witness :
    ([Value.I32 10, Value.I32 20] : List Value).length
        = (FunctionType.mk [.I32, .I32] []).params.length ∧
    (push_args vmEmpty ⟨[.I32, .I32], []⟩ [Value.I32 10, Value.I32 20]
        = .ok { vmEmpty with
                  operand_stack := vmEmpty.operand_stack
                    ++ [Value.I32 10, Value.I32 20] } ∧
      (call_internal_function ⟨[.I32, .I32], []⟩ [] ([] : List Unit)
          { vmEmpty with
              operand_stack := vmEmpty.operand_stack
                ++ [Value.I32 10, Value.I32 20] }).frames
        = ⟨[Value.I32 10, Value.I32 20] ++ localsInit [], []⟩ :: vmEmpty.frames ∧
      ([Value.I32 10, Value.I32 20] ++ localsInit []).take
          (FunctionType.mk [.I32, .I32] []).params.length
        = [Value.I32 10, Value.I32 20]) :=
  ⟨by decide,
    claim_C3 ⟨[.I32, .I32], []⟩ [] ([] : List Unit) vmEmpty
      [Value.I32 10, Value.I32 20] (by decide)⟩

/-- Claim C2: for an Internal function of type () -> (i32, i32) whose body
pushes the values 1 then 2, in that order, before its frame completes, eval
with no arguments returns the sequence [1, 2] — the returned order equals
push order, with the value popped first (pushed last) at the highest
index. -/
theorem claim_C2 {Instr : Type} (do_loop : DoLoop Instr)
    (lg : List LocalGroup) (ex : List Instr) (cell : ModuleCell Instr)
    (below : List Value) (vmDone : VMModule Instr)
    (hb : cell.borrowed = false)
    (hrun : do_loop (call_internal_function ⟨[], [.I32, .I32]⟩ lg ex
        { cell.value with
            operand_stack := push_values cell.value.operand_stack [] })
      = .ok vmDone)
    (hstk : vmDone.operand_stack = below ++ [Value.I32 1, Value.I32 2]) :
    (VMFunction.internal ⟨[], [.I32, .I32]⟩ lg ex (some cell)).eval do_loop []
      = .ok [Value.I32 1, Value.I32 2]
          { vmDone with operand_stack := below } := by
  have hpop : pop_results vmDone ⟨[], [.I32, .I32]⟩
      = ([Value.I32 1, Value.I32 2], { vmDone with operand_stack := below }) := by
    simp only [pop_results, pop_values, hstk, List.length_cons,
      List.length_nil]
    have hlen : (below ++ [Value.I32 1, Value.I32 2]).length - (0 + 1 + 1)
        = below.length := by
      simp
    rw [hlen, List.drop_left, List.take_left]
  have h := eval_internal_function_ok do_loop ⟨[], [.I32, .I32]⟩ lg ex
    cell.value vmDone [] rfl hrun
  simp [VMFunction.eval, hb, h, hpop]

/-- Witness for C2: a concrete interpreter run that pushes 1 then 2 makes
eval return [1, 2]. -/
theorem claim_C2_witness :
    cellFree.borrowed = false ∧
    doLoopPush12 (call_internal_function ⟨[], [.I32, .I32]⟩ []
        ([] : List Unit)
        { cellFree.value with
            operand_stack := push_values cellFree.value.operand_stack [] })
      = .ok ⟨[Value.I32 1, Value.I32 2], [], [], []⟩ ∧
    (⟨[Value.I32 1, Value.I32 2], [], [], []⟩ : VMModule Unit).operand_stack
      = [] ++ [Value.I32 1, Value.I32 2] ∧
    (VMFunction.internal ⟨[], [.I32, .I32]⟩ [] ([] : List Unit)
        (some cellFree)).eval doLoopPush12 []
      = .ok [Value.I32 1, Value.I32 2]
          { (⟨[Value.I32 1, Value.I32 2], [], [], []⟩ : VMModule Unit) with
              operand_stack := [] } :=
  ⟨rfl, rfl, rfl,
    claim_C2 doLoopPush12 [] ([] : List Unit) cellFree []
      ⟨[Value.I32 1, Value.I32 2], [], [], []⟩ rfl rfl rfl⟩

/-- Claim C9: for every Internal function with signature S whose frame
completes with at least len(S.results) values on the stack, eval pops
exactly len(S.results) values off the top and returns a result sequence of
exactly that length, leaving every deeper value in place. -/
theorem claim_C9 {Instr : Type} (do_loop : DoLoop Instr) (ft : FunctionType)
    (lg : List LocalGroup) (ex : List Instr) (vm vmDone : VMModule Instr)
    (args : List Value)
    (ha : args.length = ft.params.length)
    (hrun : do_loop (call_internal_function ft lg ex
        { vm with operand_stack := push_values vm.operand_stack args })
      = .ok vmDone)
    (hlen : ft.results.length ≤ vmDone.operand_stack.length) :
    eval_internal_function do_loop ft lg ex vm args
        = .ok (pop_results vmDone ft).1 (pop_results vmDone ft).2 ∧
    (pop_results vmDone ft).1.length = ft.results.length ∧
    (pop_results vmDone ft).2.operand_stack ++ (pop_results vmDone ft).1
        = vmDone.operand_stack := by
  refine ⟨eval_internal_function_ok do_loop ft lg ex vm vmDone args ha hrun,
    ?_, ?_⟩
  · simp [pop_results, pop_values, Nat.sub_sub_self hlen]
  · simp [pop_results, pop_values, List.take_append_drop]

/-- Witness for C9: a frame of a () -> (i32) function completing with one
pushed value makes eval pop and return exactly that one value. -/
theorem claim_C9_witness :
    ([] : List Value).length = (FunctionType.mk [] [.I32]).params.length ∧
    doLoopPush7 (call_internal_function ⟨[], [.I32]⟩ [] ([] : List Unit)
        { vmEmpty with
            operand_stack := push_values vmEmpty.operand_stack [] })
      = .ok ⟨[Value.I32 7], [], [], []⟩ ∧
    (FunctionType.mk [] [.I32]).results.length
        ≤ (⟨[Value.I32 7], [], [], []⟩ : VMModule Unit).operand_stack.length ∧
    (eval_internal_function doLoopPush7 ⟨[], [.I32]⟩ [] ([] : List Unit)
          vmEmpty []
        = .ok (pop_results (⟨[Value.I32 7], [], [], []⟩ : VMModule Unit)
              ⟨[], [.I32]⟩).1
            (pop_results (⟨[Value.I32 7], [], [], []⟩ : VMModule Unit)
              ⟨[], [.I32]⟩).2 ∧
      (pop_results (⟨[Value.I32 7], [], [], []⟩ : VMModule Unit)
          ⟨[], [.I32]⟩).1.length = (FunctionType.mk [] [.I32]).results.length ∧
      (pop_results (⟨[Value.I32 7], [], [], []⟩ : VMModule Unit)
            ⟨[], [.I32]⟩).2.operand_stack
          ++ (pop_results (⟨[Value.I32 7], [], [], []⟩ : VMModule Unit)
              ⟨[], [.I32]⟩).1
        = (⟨[Value.I32 7], [], [], []⟩ : VMModule Unit).operand_stack) :=
  ⟨rfl, rfl, by decide,
    claim_C9 doLoopPush7 ⟨[], [.I32]⟩ [] ([] : List Unit) vmEmpty
      ⟨[Value.I32 7], [], [], []⟩ [] rfl rfl (by decide)⟩

/-- Claim C10: for every Internal eval call, the parts of the target
module's state this subsystem mutates directly are the operand stack and
the call frames with their locals; provided the abstract interpreter loop
also touches only those, every other field of the module (memory, globals)
is the same after the call as before it, and a failed call leaves the
module untouched entirely. -/
theorem claim_C10 {Instr : Type} (do_loop : DoLoop Instr) (ft : FunctionType)
    (lg : List LocalGroup) (ex : List Instr) (vm : VMModule Instr)
    (args : List Value)
    (hdl : ∀ vmIn vmOut, do_loop vmIn = .ok vmOut →
        vmOut.memory = vmIn.memory ∧ vmOut.globals = vmIn.globals) :
    (∀ r vmOut, eval_internal_function do_loop ft lg ex vm args = .ok r vmOut →
        vmOut.memory = vm.memory ∧ vmOut.globals = vm.globals) ∧
    (∀ e vmOut, eval_internal_function do_loop ft lg ex vm args = .err e vmOut →
        vmOut = vm) := by
  by_cases hc : args.length ≠ ft.params.length
  · constructor
    · intro r vmOut h
      unfold eval_internal_function at h
      rw [push_args, if_pos hc] at h
      simp at h
    · intro e vmOut h
      unfold eval_internal_function at h
      rw [push_args, if_pos hc] at h
      simp at h
      exact h.2.symm
  · cases hdo : do_loop (call_internal_function ft lg ex
        { vm with operand_stack := push_values vm.operand_stack args }) with
    | error msg =>
      constructor
      · intro r vmOut h
        unfold eval_internal_function at h
        rw [push_args, if_neg hc] at h
        simp only [hdo] at h
        simp at h
      · intro e vmOut h
        unfold eval_internal_function at h
        rw [push_args, if_neg hc] at h
        simp only [hdo] at h
        simp at h
    | ok vm₃ =>
      have hm := hdl _ vm₃ hdo
      constructor
      · intro r vmOut h
        unfold eval_internal_function at h
        rw [push_args, if_neg hc] at h
        simp only [hdo] at h
        simp only [EvalResult.ok.injEq] at h
        rw [← h.2]
        exact ⟨hm.1, hm.2⟩
      · intro e vmOut h
        unfold eval_internal_function at h
        rw [push_args, if_neg hc] at h
        simp only [hdo] at h
        simp at h

/-- Witness for C10: an identity interpreter loop preserves memory and
globals, and a concrete nullary Internal eval leaves them untouched. -/
theorem claim_C10_witness :
    (∀ vmIn vmOut : VMModule Unit, doLoopId vmIn = .ok vmOut →
        vmOut.memory = vmIn.memory ∧ vmOut.globals = vmIn.globals) ∧
    ((⟨[], [⟨[], []⟩], [], []⟩ : VMModule Unit).memory = vmEmpty.memory ∧
      (⟨[], [⟨[], []⟩], [], []⟩ : VMModule Unit).globals = vmEmpty.globals) :=
  have hdl : ∀ vmIn vmOut : VMModule Unit, doLoopId vmIn = .ok vmOut →
      vmOut.memory = vmIn.memory ∧ vmOut.globals = vmIn.globals :=
    fun vmIn vmOut h => by
      injection h with h₁
      rw [← h₁]
      exact ⟨rfl, rfl⟩
  ⟨hdl,
    (claim_C10 doLoopId ⟨[], []⟩ [] ([] : List Unit) vmEmpty [] hdl).1 []
      ⟨[], [⟨[], []⟩], [], []⟩ rfl⟩

end Anvm
